import Mathlib

/-!
Verification development for the SpecForge dynamic mock-API generator
(`main.py`).  The subsystem under study is the dynamic endpoint
registration and live-mock-configuration machinery:

* `generate_api_key`   — the credential generator (`main.py`, lines 24-28);
* the name normalizer  — `appN.lower().replace(" ", "")` (lines 82-83);
* `MOCK_CONFIG`        — the process-wide mock configuration dict (line 10),
  updated via `MOCK_CONFIG.update({...})` (lines 91-96);
* `verify_live_api_key` — the authentication guard (lines 33-38);
* `create_mock_handler` / route registration via `app.add_api_route`
  (lines 98-126): the handler closure captures `MOCK_CONFIG["example_data"]`
  by value at registration time, while the auth dependency reads the
  global `MOCK_CONFIG` on every request;
* `download_api`       — the artifact download endpoint (lines 146-151).

Randomness (`random.choices(string.digits, k=4)`) is modelled by passing
the four-digit string as an explicit parameter.  Strings are modelled over
the ASCII fragment relevant to the code (Python `str.lower`/`str.upper`
act characterwise and coincide with the ASCII case maps on the inputs the
program manipulates).  The FastAPI/Starlette router is modelled as the
ordered list of dynamically added routes; dispatch resolves a path to the
first matching entry, exactly as Starlette's router iterates its route
table in registration order.  The three statically declared routes
(`/generate_api`, `/download_api`, `/`) are omitted from the route list:
every dynamically generated path has the form `/<slug>to<slug>` and hence
contains the substring `to`, which none of the static paths do, so the
static routes can never shadow a generated path.
-/

namespace SpecForge

/-- ASCII lower-casing of one character, the characterwise action of
Python's `str.lower` on the ASCII range: `A`..`Z` (codes 65-90) map to
`a`..`z` (codes 97-122); every other character is unchanged. -/
def py_char_lower (c : Char) : Char :=
  if 65 ≤ c.toNat ∧ c.toNat ≤ 90 then Char.ofNat (c.toNat + 32) else c

/-- ASCII upper-casing of one character, the characterwise action of
Python's `str.upper` on the ASCII range. -/
def py_char_upper (c : Char) : Char :=
  if 97 ≤ c.toNat ∧ c.toNat ≤ 122 then Char.ofNat (c.toNat - 32) else c

/-- Python `s.lower()`: characterwise lower-casing. -/
def py_lower (s : String) : String :=
  ⟨s.data.map py_char_lower⟩

/-- Python `s.replace(" ", "")`: every space character (U+0020) is
removed; no other character is touched. -/
def py_remove_spaces (s : String) : String :=
  ⟨s.data.filter (fun c => c ≠ ' ')⟩

/-- The name normalizer of `generate_api` (`main.py` lines 82-83):
`appN.lower().replace(" ", "")`. -/
def normalize_name (s : String) : String :=
  py_remove_spaces (py_lower s)

/-- Python `s[:3].upper()`: the first at most three characters,
upper-cased (`main.py` lines 25-26). -/
def py_take3_upper (s : String) : String :=
  ⟨(s.data.take 3).map py_char_upper⟩

/-- `generate_api_key` (`main.py` lines 24-28).  The four random decimal
digits produced by `random.choices(string.digits, k=4)` enter as the
explicit parameter `rand`. -/
def generate_api_key (app1 app2 : String) (rand : String) : String :=
  py_take3_upper app1 ++ "-" ++ rand ++ "-" ++ py_take3_upper app2

/-- One insertion step of a Python dict comprehension over string keys
and values: overwrite in place if the key is present, else append. -/
def py_dict_insert (d : List (String × String)) (k v : String) :
    List (String × String) :=
  if d.any (fun p => p.1 = k) then
    d.map (fun p => if p.1 = k then (k, v) else p)
  else
    d ++ [(k, v)]

/-- A Python dict built from a list of key-value pairs in order
(insertion order preserved, duplicate keys overwrite). -/
def py_dict_of_pairs (l : List (String × String)) : List (String × String) :=
  l.foldl (fun d p => py_dict_insert d p.1 p.2) []

/-- Python `d.get(k)` / `d[k]` on the dict model. -/
def py_dict_get (d : List (String × String)) (k : String) : Option String :=
  (d.find? (fun p => p.1 = k)).map (fun p => p.2)

/-- The JSON envelope `{"status": ..., "data": ...}` stored in
`MOCK_CONFIG["example_data"]` (`main.py` line 94) and returned by the
mock handlers (line 103). -/
structure Envelope where
  status : String
  data : List (String × String)
deriving DecidableEq, Repr

/-- The global `MOCK_CONFIG` dict (`main.py` line 10).  It only ever
holds the four keys written by `MOCK_CONFIG.update` (lines 91-96), so it
is modelled as a record of four optional fields, all absent initially
(`MOCK_CONFIG = {}`). -/
structure MockConfig where
  api_key : Option String
  auth_required : Option Bool
  example_data : Option Envelope
  endpoints : Option (List String)
deriving DecidableEq, Repr

/-- The initial `MOCK_CONFIG = {}`: no key is present. -/
def MockConfig.empty : MockConfig :=
  ⟨none, none, none, none⟩

/-- `MOCK_CONFIG.update({...})` as performed at `main.py` lines 91-96:
a pointwise dict update that assigns all four keys. -/
def MockConfig.update (c : MockConfig) (key : String) (auth : Bool)
    (env : Envelope) (eps : List String) : MockConfig :=
  { c with
    api_key := some key
    auth_required := some auth
    example_data := some env
    endpoints := some eps }

/-- A handler produced by `create_mock_handler` (`main.py` lines 99-104):
the closure captures `mock_data` — the value of
`MOCK_CONFIG["example_data"]` at registration time — by value. -/
structure MockHandler where
  mock_data : Envelope
deriving DecidableEq, Repr

/-- The mutable server state relevant to the subsystem: the global
`MOCK_CONFIG` and the ordered list of dynamically registered routes
(`app.add_api_route` appends to the router's route table). -/
structure AppState where
  mock_config : MockConfig
  routes : List (String × MockHandler)
deriving DecidableEq, Repr

/-- The server state at startup: empty `MOCK_CONFIG`, no dynamic routes. -/
def AppState.initial : AppState :=
  ⟨MockConfig.empty, []⟩

/-- Python truthiness of `MOCK_CONFIG.get("auth_required")`:
a missing key is falsy, otherwise the boolean itself. -/
def py_truthy_bool : Option Bool → Bool
  | none => false
  | some b => b

/-- Python truthiness of `MOCK_CONFIG.get("api_key")`:
a missing key and the empty string are falsy. -/
def py_truthy_str : Option String → Bool
  | none => false
  | some s => !(s == "")

/-- `verify_live_api_key` (`main.py` lines 33-38).  Returns `true` when
the request is permitted; `false` models the `HTTPException(401)`.
The header `X-API-Key` arrives as `api_key` (`none` when absent). -/
def verify_live_api_key (cfg : MockConfig) (api_key : Option String) : Bool :=
  if py_truthy_bool cfg.auth_required && py_truthy_str cfg.api_key then
    match api_key with
    | none => false
    | some k => if k == "" then false else k == cfg.api_key.getD ""
  else
    true

/-- Outcome of a live GET to a mock route: `success` is the
`JSONResponse(content=mock_data, status_code=200)` of `mock_handler`
(`main.py` line 103), `authFailure` the 401 raised by
`verify_live_api_key`. -/
inductive LiveResponse where
  | success (body : Envelope)
  | authFailure
deriving DecidableEq, Repr

/-- HTTP status code of a live response. -/
def LiveResponse.statusCode : LiveResponse → Nat
  | .success _ => 200
  | .authFailure => 401

/-- Dispatch of a GET request against the dynamic route table: Starlette
scans the route list in registration order and runs the first entry whose
path matches; its `Depends(verify_live_api_key)` dependency reads the
global `MOCK_CONFIG` at request time, while the payload is the handler's
captured `mock_data`.  `none` means no dynamic route matches. -/
def dispatch (s : AppState) (path : String) (api_key : Option String) :
    Option LiveResponse :=
  match s.routes.find? (fun r => r.1 = path) with
  | none => none
  | some r =>
    if verify_live_api_key s.mock_config api_key then
      some (.success r.2.mock_data)
    else
      some .authFailure

/-- The value returned by the `generate_api` endpoint handler together
with the successor server state (`main.py` lines 72-141; the fields kept
here are the ones the claims mention). -/
structure GenerateResult where
  state : AppState
  file_name : String
  specforge_api_key : String
  example_data : List (String × String)
  endpoint_list : List String
deriving DecidableEq, Repr

/-- The `generate_api` endpoint (`main.py` lines 72-141), acting on a
server state.  Faithful step order: compute the key from the *raw* names,
normalize the names, build the endpoint pair and the payload template,
update `MOCK_CONFIG` (all four keys), create one handler closure
capturing the freshly stored `MOCK_CONFIG["example_data"]`, and append
that handler to the route table under both endpoint paths.  The handler
has no validation step: every input reaches the state mutation. -/
def generate_api (app1 app2 : String) (fields : List String)
    (require_auth : Bool) (rand : String) (s : AppState) : GenerateResult :=
  let api_key := generate_api_key app1 app2 rand
  let app1_clean := normalize_name app1
  let app2_clean := normalize_name app2
  let endpoints := ["/" ++ app1_clean ++ "to" ++ app2_clean,
                    "/" ++ app2_clean ++ "to" ++ app1_clean]
  let example_data := py_dict_of_pairs (fields.map (fun f => (f, "sample_" ++ f)))
  let file_name := app1_clean ++ "_" ++ app2_clean ++ "_api.py"
  let envelope : Envelope := ⟨"success", example_data⟩
  let cfg := s.mock_config.update api_key require_auth envelope endpoints
  let handler : MockHandler := ⟨cfg.example_data.getD envelope⟩
  let routes := s.routes ++ endpoints.map (fun e => (e, handler))
  { state := ⟨cfg, routes⟩
    file_name := file_name
    specforge_api_key := api_key
    example_data := example_data
    endpoint_list := endpoints }

/-- POSIX `os.path.join` for two components, the fragment exercised by
`download_api`: an absolute second component discards the first; otherwise
the components are joined with exactly one separator. -/
def os_path_join (a b : String) : String :=
  if b.data.head? = some '/' then b
  else if a.data = [] ∨ a.data.getLast? = some '/' then a ++ b
  else a ++ "/" ++ b

/-- Outcome of the download endpoint: the raw bytes of the file
(`FileResponse`) or the 404 `HTTPException`. -/
inductive DownloadResponse where
  | fileResponse (contents : List UInt8)
  | notFound
deriving DecidableEq, Repr

/-- `download_api` (`main.py` lines 146-151), over an abstract disk `fs`
mapping path strings to file contents: it joins `"generated_apis"` with
the caller-supplied `file` value and serves whatever exists at the joined
path, with no sanitization of `file`. -/
def download_api (fs : String → Option (List UInt8)) (file : String) :
    DownloadResponse :=
  match fs (os_path_join "generated_apis" file) with
  | some bytes => .fileResponse bytes
  | none => .notFound

/-- The first generated endpoint path,
`"/" + slug(app1) + "to" + slug(app2)` (`main.py` line 84). -/
def first_endpoint (app1 app2 : String) : String :=
  "/" ++ normalize_name app1 ++ "to" ++ normalize_name app2

/-- The handler closure a generation call registers: it captures the
envelope built from that call's fields. -/
def generated_handler (fields : List String) : MockHandler :=
  ⟨⟨"success", py_dict_of_pairs (fields.map (fun f => (f, "sample_" ++ f)))⟩⟩

/- ### Helper lemmas: characters -/

lemma toNat_ofNat_small {n : Nat} (h : n < 55296) : (Char.ofNat n).toNat = n := by
  have hv : Nat.isValidChar n := Or.inl h
  unfold Char.ofNat
  rw [dif_pos hv]
  simp [Char.ofNatAux, Char.toNat, UInt32.toNat, BitVec.toNat_ofNatLt]

lemma py_char_lower_fix {c : Char} (h : ¬(65 ≤ c.toNat ∧ c.toNat ≤ 90)) :
    py_char_lower c = c := by
  unfold py_char_lower
  rw [if_neg h]

lemma py_char_lower_toNat_of_upper {c : Char} (h : 65 ≤ c.toNat ∧ c.toNat ≤ 90) :
    (py_char_lower c).toNat = c.toNat + 32 := by
  unfold py_char_lower
  rw [if_pos h]
  exact toNat_ofNat_small (by omega)

lemma py_char_lower_idem (c : Char) :
    py_char_lower (py_char_lower c) = py_char_lower c := by
  by_cases h : 65 ≤ c.toNat ∧ c.toNat ≤ 90
  · apply py_char_lower_fix
    rw [py_char_lower_toNat_of_upper h]
    omega
  · simp [py_char_lower_fix h]

lemma py_char_lower_not_upper (c : Char) :
    ¬(65 ≤ (py_char_lower c).toNat ∧ (py_char_lower c).toNat ≤ 90) := by
  by_cases h : 65 ≤ c.toNat ∧ c.toNat ≤ 90
  · rw [py_char_lower_toNat_of_upper h]
    omega
  · rw [py_char_lower_fix h]
    exact h

lemma normalize_name_data (s : String) :
    (normalize_name s).data = (s.data.map py_char_lower).filter (fun c => c ≠ ' ') := rfl

/- ### Helper lemmas: the credential string -/

lemma generate_api_key_data (app1 app2 rand : String) :
    (generate_api_key app1 app2 rand).data
      = (py_take3_upper app1).data
          ++ '-' :: (rand.data ++ '-' :: (py_take3_upper app2).data) := by
  show ((((py_take3_upper app1 ++ "-") ++ rand) ++ "-") ++ py_take3_upper app2).data = _
  simp [String.data_append]

lemma generate_api_key_ne_empty (app1 app2 rand : String) :
    generate_api_key app1 app2 rand ≠ "" := by
  intro h
  have hd := congrArg String.data h
  rw [generate_api_key_data] at hd
  simp at hd

/- ### Helper lemmas: the dict comprehension `{f: f"sample_{f}" for f in fields}` -/

lemma py_dict_insert_good {d : List (String × String)} {k : String}
    (hd : ∀ p ∈ d, p.2 = "sample_" ++ p.1) :
    ∀ p ∈ py_dict_insert d k ("sample_" ++ k), p.2 = "sample_" ++ p.1 := by
  intro p hp
  unfold py_dict_insert at hp
  by_cases h : d.any (fun q => q.1 = k) = true
  · rw [if_pos h] at hp
    obtain ⟨q, hq, hpq⟩ := List.mem_map.mp hp
    by_cases hk : q.1 = k
    · rw [if_pos hk] at hpq
      subst hpq
      rfl
    · rw [if_neg hk] at hpq
      subst hpq
      exact hd q hq
  · rw [if_neg h] at hp
    rcases List.mem_append.mp hp with h1 | h1
    · exact hd p h1
    · simp at h1
      subst h1
      rfl

lemma py_dict_insert_mem_keys {d : List (String × String)} {k v f : String}
    (h : f ∈ d.map Prod.fst ∨ f = k) :
    f ∈ (py_dict_insert d k v).map Prod.fst := by
  unfold py_dict_insert
  by_cases hany : d.any (fun q => q.1 = k) = true
  · rw [if_pos hany]
    have hkeys : (d.map (fun p => if p.1 = k then (k, v) else p)).map Prod.fst
        = d.map Prod.fst := by
      rw [List.map_map]
      apply List.map_congr_left
      intro q _
      by_cases hk : q.1 = k
      · simp [hk]
      · simp [hk]
    rw [hkeys]
    rcases h with h | h
    · exact h
    · obtain ⟨q, hq, hq1⟩ := List.any_eq_true.mp hany
      subst h
      exact List.mem_map.mpr ⟨q, hq, by simpa using hq1⟩
  · rw [if_neg hany, List.map_append]
    rcases h with h | h
    · exact List.mem_append.mpr (Or.inl h)
    · exact List.mem_append.mpr (Or.inr (by simp [h]))

lemma py_dict_build_good (fields : List String) :
    ∀ acc, (∀ p ∈ acc, p.2 = "sample_" ++ p.1) →
      ∀ p ∈ fields.foldl (fun d f => py_dict_insert d f ("sample_" ++ f)) acc,
        p.2 = "sample_" ++ p.1 := by
  induction fields with
  | nil => intro acc hacc p hp; exact hacc p hp
  | cons g gs ih =>
    intro acc hacc p hp
    exact ih (py_dict_insert acc g ("sample_" ++ g)) (py_dict_insert_good hacc) p hp

lemma py_dict_build_keys (fields : List String) :
    ∀ acc f, (f ∈ fields ∨ f ∈ acc.map Prod.fst) →
      f ∈ (fields.foldl (fun d g => py_dict_insert d g ("sample_" ++ g)) acc).map
            Prod.fst := by
  induction fields with
  | nil =>
    intro acc f h
    rcases h with h | h
    · simp at h
    · exact h
  | cons g gs ih =>
    intro acc f h
    apply ih (py_dict_insert acc g ("sample_" ++ g)) f
    rcases h with h | h
    · rcases List.mem_cons.mp h with h | h
      · exact Or.inr (py_dict_insert_mem_keys (Or.inr h))
      · exact Or.inl h
    · exact Or.inr (py_dict_insert_mem_keys (Or.inl h))

lemma py_dict_of_pairs_eq_foldl (fields : List String) :
    py_dict_of_pairs (fields.map (fun f => (f, "sample_" ++ f)))
      = fields.foldl (fun d f => py_dict_insert d f ("sample_" ++ f)) [] := by
  rw [py_dict_of_pairs, List.foldl_map]

lemma py_dict_get_sample (fields : List String) (f : String) (hf : f ∈ fields) :
    py_dict_get (py_dict_of_pairs (fields.map (fun g => (g, "sample_" ++ g)))) f
      = some ("sample_" ++ f) := by
  rw [py_dict_of_pairs_eq_foldl]
  have hgood := py_dict_build_good fields [] (by simp)
  have hkey := py_dict_build_keys fields [] f (Or.inl hf)
  obtain ⟨p, hp, hp1⟩ := List.mem_map.mp hkey
  have hsome : (List.find? (fun q => q.1 = f)
      (fields.foldl (fun d g => py_dict_insert d g ("sample_" ++ g)) [])).isSome := by
    apply List.find?_isSome.mpr
    exact ⟨p, hp, by simp [hp1]⟩
  obtain ⟨q, hq⟩ := Option.isSome_iff_exists.mp hsome
  have hq1 : q.1 = f := by simpa using List.find?_some hq
  have hq2 := hgood q (List.mem_of_find?_eq_some hq)
  rw [py_dict_get, hq]
  simp [hq2, hq1]

/- ### Helper lemmas: the route table -/

lemma find?_routes_append {l : List (String × MockHandler)} {e1 e2 p : String}
    {h : MockHandler}
    (hfresh : ∀ r ∈ l, r.1 ≠ e1 ∧ r.1 ≠ e2) (hp : p = e1 ∨ p = e2) :
    (l ++ [(e1, h), (e2, h)]).find? (fun r => r.1 = p) = some (p, h) := by
  rw [List.find?_append]
  have h1 : l.find? (fun r => r.1 = p) = none := by
    apply List.find?_eq_none.mpr
    intro r hr
    rcases hfresh r hr with ⟨ha, hb⟩
    rcases hp with h' | h' <;> simp [h', ha, hb]
  rw [h1, Option.none_or]
  rcases hp with h' | h'
  · subst h'
    simp [List.find?]
  · subst h'
    by_cases he : e1 = p
    · subst he
      simp [List.find?]
    · simp [List.find?, he]

lemma dispatch_eq_of_find? {s : AppState} {p : String}
    {r : String × MockHandler} {hdr : Option String}
    (h : s.routes.find? (fun q => q.1 = p) = some r) :
    dispatch s p hdr
      = (if verify_live_api_key s.mock_config hdr
         then some (LiveResponse.success r.2.mock_data)
         else some LiveResponse.authFailure) := by
  unfold dispatch
  rw [h]

/- ### Concrete scenarios -/

/-- First generation: `app1=WhatsApp`, `app2=Swiggy`, `fields=[id]`,
auth on, random digits `1111`. -/
def demo_gen1 : GenerateResult :=
  generate_api "WhatsApp" "Swiggy" ["id"] true "1111" AppState.initial

/-- Second generation over the same pair with `fields=[name]` and random
digits `2222`; its routes collide with `demo_gen1`'s. -/
def demo_gen2 : GenerateResult :=
  generate_api "WhatsApp" "Swiggy" ["name"] true "2222" demo_gen1.state

/-- Like `demo_gen1` but with `require_auth=false`. -/
def demo_gen1_open : GenerateResult :=
  generate_api "WhatsApp" "Swiggy" ["id"] false "1111" AppState.initial

/-- Like `demo_gen2` but with `require_auth=false`. -/
def demo_gen2_open : GenerateResult :=
  generate_api "WhatsApp" "Swiggy" ["name"] false "2222" demo_gen1_open.state

/-- Generation whose first service name normalizes to the empty slug. -/
def empty_slug_gen : GenerateResult :=
  generate_api " " "Zomato" ["id"] true "1234" AppState.initial

/-- Generation with an empty field list. -/
def empty_fields_gen : GenerateResult :=
  generate_api "WhatsApp" "Swiggy" [] true "1234" AppState.initial

/- ### Claim theorems -/

/-- Claim C1: the claim says that after two generation calls a GET to any
live mock route returns the envelope built from the most recently
generated configuration.  The code violates this: the handler closure
captures `MOCK_CONFIG["example_data"]` by value at registration time, and
Starlette dispatches a colliding path to the first-registered entry, so
after regenerating with new fields the live route still serves the first
generation's payload even when the caller authenticates with the current
(second) credential.  This contradicts the code's own comment
("The MOCK_CONFIG ensures they all serve the latest data") and its FAQ
text, so the claim is right and the code is wrong.  This theorem
evaluates the model at the failing input. -/
theorem live_route_serves_registration_payload :
    demo_gen2.state.mock_config.api_key = some "WHA-2222-SWI"
    ∧ demo_gen2.state.mock_config.example_data
        = some ⟨"success", [("name", "sample_name")]⟩
    ∧ dispatch demo_gen2.state "/whatsapptoswiggy" (some "WHA-2222-SWI")
        = some (.success ⟨"success", [("id", "sample_id")]⟩)
    ∧ (Envelope.mk "success" [("id", "sample_id")])
        ≠ ⟨"success", [("name", "sample_name")]⟩ := by
  decide

/-- Claim C2 counterexample: after two generations over the same pair the
router holds two entries for `/whatsapptoswiggy` (registration is not
idempotent), and dispatch resolves them to the FIRST-registered handler
(it serves the first generation's payload), not to the most recently
registered one (whose payload is the second generation's) — so both
disjuncts of the claim fail. -/
theorem duplicate_routes_resolve_to_first_handler :
    (demo_gen2.state.routes.filter (fun r => r.1 = "/whatsapptoswiggy")).length = 2
    ∧ (demo_gen2.state.routes.filter (fun r => r.1 = "/whatsapptoswiggy")).getLast?
        = some ("/whatsapptoswiggy", ⟨⟨"success", [("name", "sample_name")]⟩⟩)
    ∧ dispatch demo_gen2.state "/whatsapptoswiggy" (some "WHA-2222-SWI")
        = some (.success ⟨"success", [("id", "sample_id")]⟩)
    ∧ (LiveResponse.success ⟨"success", [("id", "sample_id")]⟩)
        ≠ .success ⟨"success", [("name", "sample_name")]⟩ := by
  decide

/-- Claim C2, amended: route registration is not idempotent — every
generation appends its two entries to the route table without removing or
overwriting existing ones, and when a path already has an entry, dispatch
resolves to that earliest-registered handler (serving its captured
payload), with authentication still evaluated against the latest
configuration. -/
theorem registration_appends_and_dispatch_prefers_earliest
    (app1 app2 : String) (fields : List String) (ra : Bool) (rand : String)
    (s : AppState) (p : String) (r0 : String × MockHandler) (hdr : Option String)
    (h0 : s.routes.find? (fun r => r.1 = p) = some r0) :
    (generate_api app1 app2 fields ra rand s).state.routes
      = s.routes ++ [(first_endpoint app1 app2, generated_handler fields),
                     (first_endpoint app2 app1, generated_handler fields)]
    ∧ dispatch (generate_api app1 app2 fields ra rand s).state p hdr
        = (if verify_live_api_key
              (generate_api app1 app2 fields ra rand s).state.mock_config hdr
           then some (.success r0.2.mock_data)
           else some .authFailure) := by
  constructor
  · rfl
  · apply dispatch_eq_of_find?
    show (s.routes ++ [(first_endpoint app1 app2, generated_handler fields),
        (first_endpoint app2 app1, generated_handler fields)]).find?
          (fun r => r.1 = p) = some r0
    rw [List.find?_append, h0]
    rfl

/-- Witness for the amended Claim C2 theorem at the two-generation
scenario: the hypothesis (the first generation left an entry at
`/whatsapptoswiggy`) holds, and the conclusion follows by the theorem. -/
theorem registration_appends_and_dispatch_prefers_earliest_witness :
    demo_gen1.state.routes.find? (fun r => r.1 = "/whatsapptoswiggy")
      = some ("/whatsapptoswiggy", ⟨⟨"success", [("id", "sample_id")]⟩⟩)
    ∧ ((generate_api "WhatsApp" "Swiggy" ["name"] true "2222"
          demo_gen1.state).state.routes
        = demo_gen1.state.routes
            ++ [(first_endpoint "WhatsApp" "Swiggy", generated_handler ["name"]),
                (first_endpoint "Swiggy" "WhatsApp", generated_handler ["name"])]
      ∧ dispatch (generate_api "WhatsApp" "Swiggy" ["name"] true "2222"
            demo_gen1.state).state "/whatsapptoswiggy" (some "WHA-2222-SWI")
          = (if verify_live_api_key
                (generate_api "WhatsApp" "Swiggy" ["name"] true "2222"
                  demo_gen1.state).state.mock_config (some "WHA-2222-SWI")
             then some (.success
                (("/whatsapptoswiggy",
                  (⟨⟨"success", [("id", "sample_id")]⟩⟩ : MockHandler)) :
                    String × MockHandler).2.mock_data)
             else some .authFailure)) :=
  ⟨by decide,
   registration_appends_and_dispatch_prefers_earliest "WhatsApp" "Swiggy" ["name"]
     true "2222" demo_gen1.state "/whatsapptoswiggy"
     ("/whatsapptoswiggy", ⟨⟨"success", [("id", "sample_id")]⟩⟩)
     (some "WHA-2222-SWI") (by decide)⟩

/-- Claim C3: the claim says a generation whose service names normalize
to an empty slug, or whose field list is empty, is rejected before any
state mutation.  The endpoint performs no server-side validation at all:
with `app1=" "` (empty slug) it replaces `MOCK_CONFIG` and registers the
routes `/tozomato` and `/zomatoto`, and with `fields=[]` it installs an
empty payload template — while the frontend embedded in the same file
blocks exactly these inputs client-side, showing the stated behavior is
the intent.  This theorem evaluates the model at the failing inputs. -/
theorem generate_accepts_empty_slug_and_empty_fields :
    empty_slug_gen.state.mock_config ≠ AppState.initial.mock_config
    ∧ empty_slug_gen.state.mock_config.api_key = some " -1234-ZOM"
    ∧ empty_slug_gen.state.routes.map Prod.fst = ["/tozomato", "/zomatoto"]
    ∧ empty_fields_gen.state.mock_config.example_data = some ⟨"success", []⟩
    ∧ empty_fields_gen.state.routes.map Prod.fst
        = ["/whatsapptoswiggy", "/swiggytowhatsapp"] := by
  decide

/- ### Helper lemmas: the authentication guard on a fully populated config -/

lemma verify_auth_on_correct {K : String} (hK : K ≠ "") (ed : Option Envelope)
    (eps : Option (List String)) :
    verify_live_api_key ⟨some K, some true, ed, eps⟩ (some K) = true := by
  simp [verify_live_api_key, py_truthy_bool, py_truthy_str, hK]

lemma verify_auth_on_absent {K : String} (hK : K ≠ "") (ed : Option Envelope)
    (eps : Option (List String)) :
    verify_live_api_key ⟨some K, some true, ed, eps⟩ none = false := by
  simp [verify_live_api_key, py_truthy_bool, py_truthy_str, hK]

lemma verify_auth_on_wrong {K k : String} (hK : K ≠ "") (hk : k ≠ K)
    (ed : Option Envelope) (eps : Option (List String)) :
    verify_live_api_key ⟨some K, some true, ed, eps⟩ (some k) = false := by
  by_cases hke : k = ""
  · simp [verify_live_api_key, py_truthy_bool, py_truthy_str, hK, hke]
  · simp [verify_live_api_key, py_truthy_bool, py_truthy_str, hK, hke, hk]

lemma verify_auth_off (ak : Option String) (ed : Option Envelope)
    (eps : Option (List String)) (hdr : Option String) :
    verify_live_api_key ⟨ak, some false, ed, eps⟩ hdr = true := by
  simp [verify_live_api_key, py_truthy_bool]

/-- Claim C4, amended: for a generation with `require_auth=true` whose
two paths are not already present in the route table, a live GET with the
header equal (byte-for-byte) to the current credential returns 200 with
the expected payload, and an absent or different header yields the 401
authentication failure and never a payload.  (If a path collides with an
earlier registration, dispatch reaches the earlier handler instead and
serves its stale payload — see the counterexample — though the
credential check itself still uses the current configuration.) -/
theorem auth_round_trip_fresh_paths
    (app1 app2 : String) (fields : List String) (rand : String) (s : AppState)
    (hfresh : ∀ r ∈ s.routes,
      r.1 ≠ first_endpoint app1 app2 ∧ r.1 ≠ first_endpoint app2 app1)
    (p : String)
    (hp : p = first_endpoint app1 app2 ∨ p = first_endpoint app2 app1) :
    dispatch (generate_api app1 app2 fields true rand s).state p
        (some (generate_api app1 app2 fields true rand s).specforge_api_key)
      = some (.success ⟨"success",
          (generate_api app1 app2 fields true rand s).example_data⟩)
    ∧ dispatch (generate_api app1 app2 fields true rand s).state p none
        = some .authFailure
    ∧ ∀ k, k ≠ (generate_api app1 app2 fields true rand s).specforge_api_key →
        dispatch (generate_api app1 app2 fields true rand s).state p (some k)
          = some .authFailure := by
  have hKne := generate_api_key_ne_empty app1 app2 rand
  have hfind : (generate_api app1 app2 fields true rand s).state.routes.find?
      (fun q => q.1 = p) = some (p, generated_handler fields) := by
    show (s.routes ++ [(first_endpoint app1 app2, generated_handler fields),
        (first_endpoint app2 app1, generated_handler fields)]).find?
          (fun q => q.1 = p) = some (p, generated_handler fields)
    exact find?_routes_append hfresh hp
  refine ⟨?_, ?_, ?_⟩
  · rw [dispatch_eq_of_find? hfind]
    have hv : verify_live_api_key
        (generate_api app1 app2 fields true rand s).state.mock_config
        (some (generate_api app1 app2 fields true rand s).specforge_api_key)
        = true := verify_auth_on_correct hKne _ _
    simp [hv]
    rfl
  · rw [dispatch_eq_of_find? hfind]
    have hv : verify_live_api_key
        (generate_api app1 app2 fields true rand s).state.mock_config none
        = false := verify_auth_on_absent hKne _ _
    simp [hv]
  · intro k hk
    rw [dispatch_eq_of_find? hfind]
    have hv : verify_live_api_key
        (generate_api app1 app2 fields true rand s).state.mock_config (some k)
        = false := verify_auth_on_wrong hKne hk _ _
    simp [hv]

/-- Witness for the amended Claim C4 theorem: one generation from the
initial state; the correct key is accepted with the payload, while an
absent or wrong key is rejected with 401. -/
theorem auth_round_trip_fresh_paths_witness :
    (∀ r ∈ AppState.initial.routes,
      r.1 ≠ first_endpoint "WhatsApp" "Swiggy"
        ∧ r.1 ≠ first_endpoint "Swiggy" "WhatsApp")
    ∧ dispatch demo_gen1.state "/whatsapptoswiggy" (some "WHA-1111-SWI")
        = some (.success ⟨"success", [("id", "sample_id")]⟩)
    ∧ dispatch demo_gen1.state "/whatsapptoswiggy" none = some .authFailure
    ∧ dispatch demo_gen1.state "/whatsapptoswiggy" (some "WRONG")
        = some .authFailure := by
  have h := auth_round_trip_fresh_paths "WhatsApp" "Swiggy" ["id"] "1111"
    AppState.initial (by intro r hr; simp [AppState.initial] at hr)
    "/whatsapptoswiggy" (Or.inl (by decide))
  exact ⟨by intro r hr; simp [AppState.initial] at hr,
    h.1, h.2.1, h.2.2 "WRONG" (by decide)⟩

/-- Claim C4 counterexample: a second `require_auth=true` generation over
the same pair; a live GET to `/whatsapptoswiggy` with the current
(second) credential returns 200 but with the FIRST generation's payload,
not the expected payload of the current configuration. -/
theorem colliding_paths_break_auth_round_trip :
    demo_gen2.state.mock_config.example_data
        = some ⟨"success", [("name", "sample_name")]⟩
    ∧ dispatch demo_gen2.state "/whatsapptoswiggy" (some "WHA-2222-SWI")
        = some (.success ⟨"success", [("id", "sample_id")]⟩)
    ∧ dispatch demo_gen2.state "/whatsapptoswiggy" (some "WHA-2222-SWI")
        ≠ some (.success ⟨"success", [("name", "sample_name")]⟩) := by
  decide

/-- Claim C5: the generated credential is
`<AAA>-<DDDD>-<BBB>` — the first three characters of the first input,
upper-cased, then four random decimal digits, then likewise from the
second input; in the `WhatsApp Swiggy`/`Zomato` scenario the stored
credential matches the pattern `WHA-####-ZOM`. -/
theorem credential_format (s1 s2 rand : String)
    (hlen : rand.data.length = 4) (hdig : ∀ c ∈ rand.data, c.isDigit = true) :
    (generate_api_key s1 s2 rand).data
      = ((s1.data.take 3).map py_char_upper)
          ++ '-' :: (rand.data ++ '-' :: ((s2.data.take 3).map py_char_upper))
    ∧ ∃ d1 d2 d3 d4, rand.data = [d1, d2, d3, d4]
        ∧ (∀ c ∈ [d1, d2, d3, d4], c.isDigit = true)
        ∧ (generate_api "WhatsApp Swiggy" "Zomato" ["id"] true rand
              AppState.initial).specforge_api_key.data
            = ['W', 'H', 'A', '-', d1, d2, d3, d4, '-', 'Z', 'O', 'M'] := by
  constructor
  · exact generate_api_key_data s1 s2 rand
  · rcases hr : rand.data with _ | ⟨d1, _ | ⟨d2, _ | ⟨d3, _ | ⟨d4, _ | ⟨d5, t⟩⟩⟩⟩⟩ <;>
      rw [hr] at hlen <;> simp at hlen
    rw [hr] at hdig
    refine ⟨d1, d2, d3, d4, rfl, hdig, ?_⟩
    have hkey : (generate_api "WhatsApp Swiggy" "Zomato" ["id"] true rand
        AppState.initial).specforge_api_key
          = generate_api_key "WhatsApp Swiggy" "Zomato" rand := rfl
    rw [hkey, generate_api_key_data]
    have h1 : (py_take3_upper "WhatsApp Swiggy").data = ['W', 'H', 'A'] := by decide
    have h2 : (py_take3_upper "Zomato").data = ['Z', 'O', 'M'] := by decide
    rw [h1, h2, hr]
    rfl

/-- Witness for Claim C5 at `rand = "1234"`: the hypotheses (four decimal
digit characters) hold and the credential decomposes as stated. -/
theorem credential_format_witness :
    ("1234" : String).data.length = 4
    ∧ (∀ c ∈ ("1234" : String).data, c.isDigit = true)
    ∧ (generate_api_key "WhatsApp Swiggy" "Zomato" "1234").data
        = ((("WhatsApp Swiggy" : String).data.take 3).map py_char_upper)
            ++ '-' :: (("1234" : String).data
            ++ '-' :: ((("Zomato" : String).data.take 3).map py_char_upper)) := by
  refine ⟨by decide, by decide, ?_⟩
  exact (credential_format "WhatsApp Swiggy" "Zomato" "1234" (by decide)
    (by decide)).1

/-- Claim C6 counterexample: the normalizer removes only the space
character U+0020 (`replace(" ", "")`), so the slug of `"a\tb"` keeps the
tab, an internal whitespace character — refuting "slugs contain no
internal whitespace" for every free-text input. -/
theorem normalizer_keeps_tab_whitespace :
    (normalize_name "a\tb").data = ['a', '\t', 'b']
    ∧ '\t' ∈ (normalize_name "a\tb").data
    ∧ Char.isWhitespace '\t' = true := by
  decide

/-- Claim C6, amended: the normalizer is deterministic (a pure function)
and idempotent, leaves no ASCII upper-case letter in its output, and
removes every space character (U+0020); whitespace other than U+0020,
such as tab or newline, is preserved. -/
theorem normalizer_idem_lower_no_space (s : String) :
    normalize_name (normalize_name s) = normalize_name s
    ∧ (∀ c ∈ (normalize_name s).data, ¬(65 ≤ c.toNat ∧ c.toNat ≤ 90))
    ∧ ' ' ∉ (normalize_name s).data := by
  refine ⟨?_, ?_, ?_⟩
  · apply String.ext
    rw [normalize_name_data, normalize_name_data]
    have hm : ((s.data.map py_char_lower).filter (fun c => c ≠ ' ')).map
        py_char_lower
          = (s.data.map py_char_lower).filter (fun c => c ≠ ' ') := by
      refine (List.map_congr_left (g := id) ?_).trans (List.map_id _)
      intro c hc
      obtain ⟨y, _, rfl⟩ := List.mem_map.mp (List.mem_of_mem_filter hc)
      exact py_char_lower_idem y
    rw [hm, List.filter_filter]
    exact List.filter_congr (fun a _ => by simp)
  · intro c hc
    rw [normalize_name_data] at hc
    obtain ⟨y, _, rfl⟩ := List.mem_map.mp (List.mem_of_mem_filter hc)
    exact py_char_lower_not_upper y
  · intro hsp
    rw [normalize_name_data] at hsp
    have := List.of_mem_filter hsp
    simp at this

/-- Claim C7: for every input pair the two generated route paths are
exactly `"/" + slug(app1) + "to" + slug(app2)` and
`"/" + slug(app2) + "to" + slug(app1)`, in that order — as returned to
the caller, as stored in the configuration, and as the paths appended to
the route table. -/
theorem route_paths_exact (app1 app2 : String) (fields : List String)
    (ra : Bool) (rand : String) (s : AppState) :
    (generate_api app1 app2 fields ra rand s).endpoint_list
      = ["/" ++ normalize_name app1 ++ "to" ++ normalize_name app2,
         "/" ++ normalize_name app2 ++ "to" ++ normalize_name app1]
    ∧ (generate_api app1 app2 fields ra rand s).state.mock_config.endpoints
        = some ["/" ++ normalize_name app1 ++ "to" ++ normalize_name app2,
                "/" ++ normalize_name app2 ++ "to" ++ normalize_name app1]
    ∧ (generate_api app1 app2 fields ra rand s).state.routes.map Prod.fst
        = s.routes.map Prod.fst
            ++ ["/" ++ normalize_name app1 ++ "to" ++ normalize_name app2,
                "/" ++ normalize_name app2 ++ "to" ++ normalize_name app1] := by
  refine ⟨rfl, rfl, ?_⟩
  show (s.routes ++ [(first_endpoint app1 app2, generated_handler fields),
      (first_endpoint app2 app1, generated_handler fields)]).map Prod.fst = _
  rw [List.map_append]
  rfl

/-- Claim C8 counterexample: a second `require_auth=false` generation
over the same pair; the live GET to `/whatsapptoswiggy` does return 200
without credentials, but its data is the FIRST generation's payload
template, not the one built from the second call's supplied fields. -/
theorem colliding_paths_break_open_round_trip :
    demo_gen2_open.example_data = [("name", "sample_name")]
    ∧ dispatch demo_gen2_open.state "/whatsapptoswiggy" none
        = some (.success ⟨"success", [("id", "sample_id")]⟩)
    ∧ dispatch demo_gen2_open.state "/whatsapptoswiggy" none
        ≠ some (.success ⟨"success", [("name", "sample_name")]⟩) := by
  decide

/-- Claim C8, amended: after a generation with `require_auth=false` whose
paths are not already in the route table, every live GET to either
generated route — whatever the supplied header, including any X-API-Key
value — returns `{status: "success", data: payloadTemplate}`, where the
payload template maps each supplied field `f` to `"sample_" ++ f`.  (If a
path collides with an earlier registration, the earlier handler's payload
is served instead — see the counterexample.) -/
theorem open_round_trip_fresh_paths
    (app1 app2 : String) (fields : List String) (rand : String) (s : AppState)
    (hfresh : ∀ r ∈ s.routes,
      r.1 ≠ first_endpoint app1 app2 ∧ r.1 ≠ first_endpoint app2 app1)
    (p : String)
    (hp : p = first_endpoint app1 app2 ∨ p = first_endpoint app2 app1)
    (hdr : Option String) :
    dispatch (generate_api app1 app2 fields false rand s).state p hdr
      = some (.success ⟨"success",
          (generate_api app1 app2 fields false rand s).example_data⟩)
    ∧ ∀ f ∈ fields,
        py_dict_get (generate_api app1 app2 fields false rand s).example_data f
          = some ("sample_" ++ f) := by
  have hfind : (generate_api app1 app2 fields false rand s).state.routes.find?
      (fun q => q.1 = p) = some (p, generated_handler fields) := by
    show (s.routes ++ [(first_endpoint app1 app2, generated_handler fields),
        (first_endpoint app2 app1, generated_handler fields)]).find?
          (fun q => q.1 = p) = some (p, generated_handler fields)
    exact find?_routes_append hfresh hp
  constructor
  · rw [dispatch_eq_of_find? hfind]
    have hv : verify_live_api_key
        (generate_api app1 app2 fields false rand s).state.mock_config hdr
        = true := verify_auth_off _ _ _ hdr
    simp [hv]
    rfl
  · intro f hf
    exact py_dict_get_sample fields f hf

/-- Witness for the amended Claim C8 theorem: one `require_auth=false`
generation from the initial state; the route answers with the payload
both without a header and with an arbitrary wrong key, and the template
maps the supplied field `id` to `sample_id`. -/
theorem open_round_trip_fresh_paths_witness :
    (∀ r ∈ AppState.initial.routes,
      r.1 ≠ first_endpoint "WhatsApp" "Swiggy"
        ∧ r.1 ≠ first_endpoint "Swiggy" "WhatsApp")
    ∧ dispatch demo_gen1_open.state "/whatsapptoswiggy" none
        = some (.success ⟨"success", [("id", "sample_id")]⟩)
    ∧ dispatch demo_gen1_open.state "/whatsapptoswiggy" (some "ANYTHING")
        = some (.success ⟨"success", [("id", "sample_id")]⟩)
    ∧ py_dict_get demo_gen1_open.example_data "id" = some "sample_id" := by
  have h1 := open_round_trip_fresh_paths "WhatsApp" "Swiggy" ["id"] "1111"
    AppState.initial (by intro r hr; simp [AppState.initial] at hr)
    "/whatsapptoswiggy" (Or.inl (by decide)) none
  have h2 := open_round_trip_fresh_paths "WhatsApp" "Swiggy" ["id"] "1111"
    AppState.initial (by intro r hr; simp [AppState.initial] at hr)
    "/whatsapptoswiggy" (Or.inl (by decide)) (some "ANYTHING")
  exact ⟨by intro r hr; simp [AppState.initial] at hr,
    h1.1, h2.1, h1.2 "id" (by decide)⟩

/-- Claim C9: every generation call fully replaces the mock
configuration — the resulting configuration is the same whatever the
previous state (no field is retained, no merge), and each of its four
fields equals the value derived from that call's inputs.  The model holds
exactly one configuration cell, so exactly one configuration is live. -/
theorem generation_fully_replaces_config (app1 app2 : String)
    (fields : List String) (ra : Bool) (rand : String) (s t : AppState) :
    (generate_api app1 app2 fields ra rand s).state.mock_config
      = (generate_api app1 app2 fields ra rand t).state.mock_config
    ∧ (generate_api app1 app2 fields ra rand s).state.mock_config
      = { api_key := some (generate_api_key app1 app2 rand)
          auth_required := some ra
          example_data := some ⟨"success",
            py_dict_of_pairs (fields.map (fun f => (f, "sample_" ++ f)))⟩
          endpoints := some [first_endpoint app1 app2,
            first_endpoint app2 app1] } :=
  ⟨rfl, rfl⟩

/-- Claim C10: for every value of the `file` parameter the download
endpoint serves exactly the bytes stored at
`os.path.join("generated_apis", file)` when that path exists on the disk,
and returns 404 exactly when it does not — the parameter is not
sanitized, so values containing separators or `..` (which the generator
never emits) reach the disk unchanged, and an absolute value even
discards the artifact directory entirely. -/
theorem download_serves_joined_path :
    (∀ (fs : String → Option (List UInt8)) (file : String) (b : List UInt8),
      download_api fs file = .fileResponse b
        ↔ fs (os_path_join "generated_apis" file) = some b)
    ∧ (∀ (fs : String → Option (List UInt8)) (file : String),
      download_api fs file = .notFound
        ↔ fs (os_path_join "generated_apis" file) = none)
    ∧ os_path_join "generated_apis" "../../etc/passwd"
        = "generated_apis/../../etc/passwd"
    ∧ os_path_join "generated_apis" "/etc/passwd" = "/etc/passwd" := by
  refine ⟨?_, ?_, by decide, by decide⟩
  · intro fs file b
    unfold download_api
    cases h : fs (os_path_join "generated_apis" file) <;> simp [h]
  · intro fs file
    unfold download_api
    cases h : fs (os_path_join "generated_apis" file) <;> simp [h]

end SpecForge
